import Mathlib

set_option maxRecDepth 100000

/-!
Shallow embedding of `metadata-ingestion/src/datahub/ingestion/source/metadata/
business_glossary.py` (the business-glossary file source of DataHub), together
with theorems settling the specification claims about it.

Embedding conventions:

* Python `Optional[X]` becomes `Option X`; Python `str` becomes `String`;
  Python lists become Lean `List`.
* The recursive node type (`GlossaryNodeConfig.nodes: Optional[List[
  GlossaryNodeConfig]]`) is embedded as a mutual pair
  `GlossaryNodeConfig` / `GlossaryNodeList` so every traversal is plain
  structural recursion.  The `Optional` wrapper on the child collections
  (`nodes`, `terms` of a node, and `nodes`, `terms` of the glossary root) is
  dropped: the Python code only ever consumes these fields through truthiness
  guards (`if glossaryNode.nodes:` ...), for which `None` and `[]` are
  indistinguishable, so `none` is embedded as the empty collection.  The four
  per-term reference-list fields keep their `Option` wrapper because the code
  tests them with `is not None`, where `None` and `[]` differ.
* The process-wide mutable dict `path_vs_id` is embedded by explicit state
  passing: every function that reads it takes it as an argument, and
  `populate_path_vs_id` takes the dict it starts from and returns the updated
  dict.  The dict itself is an association list whose insert prepends; since
  lookups take the most recent entry, this realizes the overwrite semantics of
  Python dict assignment, and `dictGet` returns `none` exactly when Python
  `dict.get` would fall back to its `None` default.
* `datahub_guid`, `make_user_urn`, `make_group_urn` live in
  `datahub.emitter.mce_builder`, outside the sources at hand; each is modelled
  from the spec (see their doc comments).
* Pydantic validation (`version_must_be_1`) and the driving `get_workunits`
  are embedded with `Except`, an error standing for the raised exception.
-/

/-- Python's `models.OwnershipTypeClass.DEVELOPER` constant. -/
def OwnershipTypeClass.DEVELOPER : String := "DEVELOPER"

/-- `models.OwnerClass(owner=..., type=...)`. -/
structure OwnerClass where
  owner : String
  type : String
deriving DecidableEq, Repr

/-- `models.OwnershipClass(owners=...)`. -/
structure OwnershipClass where
  owners : List OwnerClass
deriving DecidableEq, Repr

/-- `models.StatusClass(removed=...)`. -/
structure StatusClass where
  removed : Bool
deriving DecidableEq, Repr

/-- `models.GlossaryNodeInfoClass`. -/
structure GlossaryNodeInfoClass where
  definition : String
  parentNode : Option String
  name : String
deriving DecidableEq, Repr

/-- `models.GlossaryTermInfoClass`.  `termSource` is `Option String` because the
source passes `defaults.source_type` (an `Optional[str]`) through a
`type: ignore`; `sourceRef` is always a string because `defaults.source` is
required. -/
structure GlossaryTermInfoClass where
  definition : String
  termSource : Option String
  sourceRef : String
  sourceUrl : Option String
  parentNode : Option String
  customProperties : Option (List (String × String))
  name : String
deriving DecidableEq, Repr

/-- `models.GlossaryRelatedTermsClass`. -/
structure GlossaryRelatedTermsClass where
  isRelatedTerms : Option (List String)
  hasRelatedTerms : Option (List String)
  values : Option (List String)
  relatedTerms : Option (List String)
deriving DecidableEq, Repr

/-- `models.GlossaryTermKeyClass` (listed in the aspect union of the source,
never constructed by it). -/
structure GlossaryTermKeyClass where
  name : String
deriving DecidableEq, Repr

/-- `models.BrowsePathsClass(paths=...)`. -/
structure BrowsePathsClass where
  paths : List String
deriving DecidableEq, Repr

/-- The aspects a `GlossaryNodeSnapshotClass` can carry in this source. -/
inductive NodeAspect : Type where
  | nodeInfo : GlossaryNodeInfoClass → NodeAspect
  | ownership : OwnershipClass → NodeAspect
  | status : StatusClass → NodeAspect
deriving DecidableEq, Repr

/-- The aspect union annotated on the `aspects` list in `get_mces_from_term`. -/
inductive TermAspect : Type where
  | termInfo : GlossaryTermInfoClass → TermAspect
  | relatedTerms : GlossaryRelatedTermsClass → TermAspect
  | ownership : OwnershipClass → TermAspect
  | status : StatusClass → TermAspect
  | termKey : GlossaryTermKeyClass → TermAspect
  | browsePaths : BrowsePathsClass → TermAspect
deriving DecidableEq, Repr

/-- `models.GlossaryNodeSnapshotClass`. -/
structure GlossaryNodeSnapshotClass where
  urn : String
  aspects : List NodeAspect
deriving DecidableEq, Repr, Inhabited

/-- `models.GlossaryTermSnapshotClass`. -/
structure GlossaryTermSnapshotClass where
  urn : String
  aspects : List TermAspect
deriving DecidableEq, Repr, Inhabited

/-- The two snapshot kinds this source proposes. -/
inductive Snapshot : Type where
  | node : GlossaryNodeSnapshotClass → Snapshot
  | term : GlossaryTermSnapshotClass → Snapshot
deriving DecidableEq, Repr, Inhabited

/-- `models.MetadataChangeEventClass(proposedSnapshot=...)`. -/
structure MetadataChangeEventClass where
  proposedSnapshot : Snapshot
deriving DecidableEq, Repr, Inhabited

/-- `valid_status: models.StatusClass = models.StatusClass(removed=False)`. -/
def valid_status : StatusClass := { removed := false }

/-- Config class `Owners`. -/
structure Owners where
  users : Option (List String)
  groups : Option (List String)
deriving DecidableEq, Repr

/-- Config class `GlossaryTermConfig`. -/
structure GlossaryTermConfig where
  id : Option String
  name : String
  description : String
  term_source : Option String
  source_ref : Option String
  source_url : Option String
  owners : Option Owners
  inherits : Option (List String)
  contains : Option (List String)
  values : Option (List String)
  related_terms : Option (List String)
  custom_properties : Option (List (String × String))
deriving DecidableEq, Repr

mutual
/-- Config class `GlossaryNodeConfig` (fields in source order: `id`, `name`,
`description`, `owners`, `terms`, `nodes`).  The recursive child list is the
mutual type `GlossaryNodeList`; absent (`None`) child collections are embedded
as empty ones, which the Python truthiness guards cannot distinguish. -/
inductive GlossaryNodeConfig : Type where
  | mk : Option String → String → String → Option Owners →
      List GlossaryTermConfig → GlossaryNodeList → GlossaryNodeConfig
deriving DecidableEq, Repr

/-- A list of `GlossaryNodeConfig`, as a mutual inductive so that traversals
are structurally recursive. -/
inductive GlossaryNodeList : Type where
  | nil : GlossaryNodeList
  | cons : GlossaryNodeConfig → GlossaryNodeList → GlossaryNodeList
deriving DecidableEq, Repr
end

/-- Field accessor `GlossaryNodeConfig.id`. -/
def GlossaryNodeConfig.id : GlossaryNodeConfig → Option String
  | .mk i _ _ _ _ _ => i

/-- Field accessor `GlossaryNodeConfig.name`. -/
def GlossaryNodeConfig.name : GlossaryNodeConfig → String
  | .mk _ n _ _ _ _ => n

/-- Field accessor `GlossaryNodeConfig.description`. -/
def GlossaryNodeConfig.description : GlossaryNodeConfig → String
  | .mk _ _ d _ _ _ => d

/-- Field accessor `GlossaryNodeConfig.owners`. -/
def GlossaryNodeConfig.owners : GlossaryNodeConfig → Option Owners
  | .mk _ _ _ o _ _ => o

/-- Field accessor `GlossaryNodeConfig.terms`. -/
def GlossaryNodeConfig.terms : GlossaryNodeConfig → List GlossaryTermConfig
  | .mk _ _ _ _ t _ => t

/-- Field accessor `GlossaryNodeConfig.nodes`. -/
def GlossaryNodeConfig.nodes : GlossaryNodeConfig → GlossaryNodeList
  | .mk _ _ _ _ _ n => n

/-- Config class `DefaultConfig`: defaults for populating glossary terms. -/
structure DefaultConfig where
  source : String
  owners : Owners
  url : Option String
  source_type : Option String
deriving DecidableEq, Repr

/-- Config class `BusinessGlossarySourceConfig`. -/
structure BusinessGlossarySourceConfig where
  file : String
  enable_auto_id : Bool
deriving DecidableEq, Repr

/-- Config class `BusinessGlossaryConfig` (a `DefaultConfig` plus `version` and
the root forest). -/
structure BusinessGlossaryConfig extends DefaultConfig where
  version : String
  nodes : GlossaryNodeList
  terms : List GlossaryTermConfig
deriving DecidableEq, Repr

/-- The process-wide table `path_vs_id: Dict[str, Optional[str]]`, embedded as
an association list (most recent entry first). -/
abbrev PathVsId := List (String × Option String)

/-- The initial value of the module-level `path_vs_id` global: `{}` at process
start. -/
def path_vs_id_init : PathVsId := []

/-- Python dict assignment `d[key] = val`: the new entry shadows any older
entry with the same key. -/
def dictInsert (d : PathVsId) (key : String) (val : Option String) : PathVsId :=
  (key, val) :: d

/-- Python `d.get(key)` distinguishing a missing key (`none`) from a stored
value (`some v`, where `v` itself is the stored `Optional[str]`). -/
def dictGet (d : PathVsId) (key : String) : Option (Option String) :=
  match d with
  | [] => none
  | (k, v) :: rest => if k = key then some v else dictGet rest key

/-- Modelled from the spec: `datahub_guid` from `datahub.emitter.mce_builder`
(not among the sources at hand) computes a deterministic content hash of the
structure `\x7b"path": dotted_path\x7d`.  It is modelled as an abstract but
computable deterministic function of the dotted path string; no claim depends
on the concrete digits of the hash, only on it being a function of the path. -/
def datahub_guid (dotted_path : String) : String :=
  "guid(" ++ dotted_path ++ ")"

/-- Modelled from the spec: `make_user_urn` from `datahub.emitter.mce_builder`
(not among the sources at hand) wraps a user name into a corp-user identifier. -/
def make_user_urn (username : String) : String :=
  "urn:li:corpuser:" ++ username

/-- Modelled from the spec: `make_group_urn` from `datahub.emitter.mce_builder`
(not among the sources at hand) wraps a group name into a corp-group
identifier. -/
def make_group_urn (groupname : String) : String :=
  "urn:li:corpGroup:" ++ groupname

/-- Python `str.startswith(p)`, embedded over the character list (rather than
through byte offsets) so that concrete instances evaluate inside the kernel. -/
def str_startswith (s pre : String) : Bool :=
  pre.data.isPrefixOf s.data

/-- `create_id(path, default_id, enable_auto_id)`. -/
def create_id (path : List String) (default_id : Option String)
    (enable_auto_id : Bool) : String :=
  match default_id with
  | some d => d
  | none =>
    let id_ := String.intercalate "." path
    if enable_auto_id then datahub_guid id_ else id_

/-- `make_glossary_node_urn(path, default_id, enable_auto_id)`. -/
def make_glossary_node_urn (path : List String) (default_id : Option String)
    (enable_auto_id : Bool) : String :=
  match default_id with
  | some d =>
    if str_startswith d "urn:li:glossaryNode:" then d
    else "urn:li:glossaryNode:" ++ create_id path (some d) enable_auto_id
  | none => "urn:li:glossaryNode:" ++ create_id path none enable_auto_id

/-- `make_glossary_term_urn(path, default_id, enable_auto_id)`. -/
def make_glossary_term_urn (path : List String) (default_id : Option String)
    (enable_auto_id : Bool) : String :=
  match default_id with
  | some d =>
    if str_startswith d "urn:li:glossaryTerm:" then d
    else "urn:li:glossaryTerm:" ++ create_id path (some d) enable_auto_id
  | none => "urn:li:glossaryTerm:" ++ create_id path none enable_auto_id

/-- `get_owners(owners)`: user owners first, then group owners, all tagged
`DEVELOPER`. -/
def get_owners (owners : Owners) : OwnershipClass :=
  let users_meta : List OwnerClass :=
    match owners.users with
    | some us => us.map fun o =>
        { owner := make_user_urn o, type := OwnershipTypeClass.DEVELOPER }
    | none => []
  let groups_meta : List OwnerClass :=
    match owners.groups with
    | some gs => gs.map fun o =>
        { owner := make_group_urn o, type := OwnershipTypeClass.DEVELOPER }
    | none => []
  { owners := users_meta ++ groups_meta }

/-- `get_mce_from_snapshot(snapshot)`. -/
def get_mce_from_snapshot (snapshot : Snapshot) : MetadataChangeEventClass :=
  { proposedSnapshot := snapshot }

/-- The body of the four list comprehensions in `get_mces_from_term`: one bare
referenced name is resolved through `make_glossary_term_urn([term],
default_id=path_vs_id.get(term), enable_auto_id=...)`.  `Option.join` embeds
Python `dict.get`'s conflation of a missing key with a stored `None`. -/
def resolve_ref (pvid : PathVsId) (enable_auto_id : Bool) (term : String) :
    String :=
  make_glossary_term_urn [term] (Option.join (dictGet pvid term)) enable_auto_id

/-- The `term_info` record built in `get_mces_from_term`.  `term_source` is
tested with `is not None` while `source_ref` and `source_url` are tested by
truthiness, under which the empty string falls back to the default. -/
def term_info_of (glossaryTerm : GlossaryTermConfig) (parentNode : Option String)
    (defaults : DefaultConfig) : GlossaryTermInfoClass :=
  { definition := glossaryTerm.description
    termSource :=
      match glossaryTerm.term_source with
      | some s => some s
      | none => defaults.source_type
    sourceRef :=
      match glossaryTerm.source_ref with
      | some s => if s = "" then defaults.source else s
      | none => defaults.source
    sourceUrl :=
      match glossaryTerm.source_url with
      | some s => if s = "" then defaults.url else some s
      | none => defaults.url
    parentNode := parentNode
    customProperties := glossaryTerm.custom_properties
    name := glossaryTerm.name }

/-- The `is_a`/`has_a`/`values`/`related_terms` block of `get_mces_from_term`:
each reference list that `is not None` is mapped through `resolve_ref`, and the
`GlossaryRelatedTermsClass` aspect is built when at least one of the four is
not `None`. -/
def term_relationship_aspect (pvid : PathVsId)
    (glossaryTerm : GlossaryTermConfig) (enable_auto_id : Bool) :
    Option GlossaryRelatedTermsClass :=
  let is_a := glossaryTerm.inherits.map (List.map (resolve_ref pvid enable_auto_id))
  let has_a := glossaryTerm.contains.map (List.map (resolve_ref pvid enable_auto_id))
  let values := glossaryTerm.values.map (List.map (resolve_ref pvid enable_auto_id))
  let related_terms :=
    glossaryTerm.related_terms.map (List.map (resolve_ref pvid enable_auto_id))
  if is_a.isSome || has_a.isSome || values.isSome || related_terms.isSome then
    some { isRelatedTerms := is_a, hasRelatedTerms := has_a,
           values := values, relatedTerms := related_terms }
  else none

/-- The `ownership` local of `get_mces_from_term`: the term's own owners when
declared, else `parentOwnership`. -/
def term_ownership (glossaryTerm : GlossaryTermConfig)
    (parentOwnership : OwnershipClass) : OwnershipClass :=
  match glossaryTerm.owners with
  | some o => get_owners o
  | none => parentOwnership

/-- `get_mces_from_term(...)`: one event whose term snapshot carries, in
order, the term info, the relationship aspect when built, the ownership, and
the browse-path aspect. -/
def get_mces_from_term (pvid : PathVsId) (glossaryTerm : GlossaryTermConfig)
    (path : List String) (parentNode : Option String)
    (parentOwnership : OwnershipClass) (defaults : DefaultConfig)
    (ingestion_config : BusinessGlossarySourceConfig) :
    List MetadataChangeEventClass :=
  let term_urn :=
    make_glossary_term_urn path glossaryTerm.id ingestion_config.enable_auto_id
  let aspects : List TermAspect :=
    [TermAspect.termInfo (term_info_of glossaryTerm parentNode defaults)]
      ++ (match term_relationship_aspect pvid glossaryTerm
            ingestion_config.enable_auto_id with
          | some r => [TermAspect.relatedTerms r]
          | none => [])
      ++ [TermAspect.ownership (term_ownership glossaryTerm parentOwnership),
          TermAspect.browsePaths { paths := ["/" ++ String.intercalate "/" path] }]
  [get_mce_from_snapshot (Snapshot.term { urn := term_urn, aspects := aspects })]

/-- The `node_owners` local of `get_mces_from_node`: the node's own owners when
declared, else `parentOwners`. -/
def node_effective_owners (owners : Option Owners)
    (parentOwners : OwnershipClass) : OwnershipClass :=
  match owners with
  | some o => get_owners o
  | none => parentOwners

mutual
/-- `get_mces_from_node(...)`: the node's own event (info + owners + the
always-active status), then the subtrees of its child nodes in input order,
then one event per child term in input order. -/
def get_mces_from_node : PathVsId → GlossaryNodeConfig → List String →
    Option String → OwnershipClass → DefaultConfig →
    BusinessGlossarySourceConfig → List MetadataChangeEventClass
  | pvid, .mk id name description owners terms nodes, path, parentNode,
      parentOwners, defaults, ingestion_config =>
    let node_urn :=
      make_glossary_node_urn path id ingestion_config.enable_auto_id
    let node_info : GlossaryNodeInfoClass :=
      { definition := description, parentNode := parentNode, name := name }
    let node_owners := node_effective_owners owners parentOwners
    let node_snapshot : GlossaryNodeSnapshotClass :=
      { urn := node_urn
        aspects := [NodeAspect.nodeInfo node_info,
                    NodeAspect.ownership node_owners,
                    NodeAspect.status valid_status] }
    get_mce_from_snapshot (Snapshot.node node_snapshot)
      :: (get_mces_from_child_nodes pvid nodes path node_urn node_owners
            defaults ingestion_config
          ++ (terms.map fun term =>
                get_mces_from_term pvid term (path ++ [term.name])
                  (some node_urn) node_owners defaults ingestion_config).flatten)

/-- The `for node in glossaryNode.nodes` loop of `get_mces_from_node`: each
child is visited with the path extended by its own name, the enclosing node's
urn as parent, and the enclosing node's effective owners. -/
def get_mces_from_child_nodes : PathVsId → GlossaryNodeList → List String →
    String → OwnershipClass → DefaultConfig → BusinessGlossarySourceConfig →
    List MetadataChangeEventClass
  | _, .nil, _, _, _, _, _ => []
  | pvid, .cons node rest, path, parentUrn, parentOwners, defaults,
      ingestion_config =>
    get_mces_from_node pvid node (path ++ [node.name]) (some parentUrn)
        parentOwners defaults ingestion_config
      ++ get_mces_from_child_nodes pvid rest path parentUrn parentOwners
          defaults ingestion_config
end

/-- The `for node in glossary.nodes` loop of `get_mces(...)`: root nodes are
visited with `parentNode=None` and the glossary-level owners. -/
def get_mces_from_root_nodes (pvid : PathVsId) (l : GlossaryNodeList)
    (root_owners : OwnershipClass) (defaults : DefaultConfig)
    (ingestion_config : BusinessGlossarySourceConfig) :
    List MetadataChangeEventClass :=
  match l with
  | .nil => []
  | .cons node rest =>
    get_mces_from_node pvid node [node.name] none root_owners defaults
        ingestion_config
      ++ get_mces_from_root_nodes pvid rest root_owners defaults
          ingestion_config

/-- `get_mces(glossary, ingestion_config)`: root-node subtrees in input order,
then root-term events in input order, all against the glossary-level owners
and the glossary itself as the defaults record. -/
def get_mces (pvid : PathVsId) (glossary : BusinessGlossaryConfig)
    (ingestion_config : BusinessGlossarySourceConfig) :
    List MetadataChangeEventClass :=
  let root_owners := get_owners glossary.owners
  get_mces_from_root_nodes pvid glossary.nodes root_owners
      glossary.toDefaultConfig ingestion_config
    ++ (glossary.terms.map fun term =>
          get_mces_from_term pvid term [term.name] none root_owners
            glossary.toDefaultConfig ingestion_config).flatten

mutual
/-- `_process_child_terms(parent_node, path)` of `populate_path_vs_id`:
record the node's dotted path against its explicit id, then each child term's
dotted path against its explicit id, then recurse into child nodes with the
extended path.  The dict being mutated is threaded explicitly. -/
def _process_child_terms : GlossaryNodeConfig → List String → PathVsId →
    PathVsId
  | .mk id name _ _ terms nodes, path, d =>
    let d := dictInsert d (String.intercalate "." (path ++ [name])) id
    let d := terms.foldl
      (fun d term =>
        dictInsert d (String.intercalate "." (path ++ [name] ++ [term.name]))
          term.id)
      d
    _process_child_nodes nodes (path ++ [name]) d

/-- The `for node in parent_node.nodes` loop of `_process_child_terms`,
mutating the dict left to right. -/
def _process_child_nodes : GlossaryNodeList → List String → PathVsId → PathVsId
  | .nil, _, d => d
  | .cons node rest, path, d =>
    _process_child_nodes rest path (_process_child_terms node path d)
end

/-- `populate_path_vs_id(glossary)`: the pre-pass that records every node's and
term's dotted path against its (optional) explicit id.  The process-wide dict
it mutates is threaded as the `d` argument and returned. -/
def populate_path_vs_id (d : PathVsId) (glossary : BusinessGlossaryConfig) :
    PathVsId :=
  let d := _process_child_nodes glossary.nodes [] d
  glossary.terms.foldl
    (fun d term => dictInsert d (String.intercalate "." [term.name]) term.id)
    d

/-- The pydantic validator `BusinessGlossaryConfig.version_must_be_1`. -/
def version_must_be_1 (v : String) : Except String String :=
  if v ≠ "1" then Except.error "Only version 1 is supported" else Except.ok v

/-- `load_glossary_config`: parsing runs the `version` validator; a failing
validator raises before anything else happens. -/
def load_glossary_config (glossary_cfg : BusinessGlossaryConfig) :
    Except String BusinessGlossaryConfig :=
  match version_must_be_1 glossary_cfg.version with
  | Except.error e => Except.error e
  | Except.ok _ => Except.ok glossary_cfg

/-- `BusinessGlossaryFileSource.get_workunits`: load (validating the version),
run the `populate_path_vs_id` pre-pass against the process-wide dict, then
emit `get_mces`.  The result carries the updated process-wide dict alongside
the emitted events; an error means the run raised before emitting anything. -/
def get_workunits (path_vs_id : PathVsId)
    (raw_glossary : BusinessGlossaryConfig)
    (config : BusinessGlossarySourceConfig) :
    Except String (PathVsId × List MetadataChangeEventClass) :=
  match load_glossary_config raw_glossary with
  | Except.error e => Except.error e
  | Except.ok glossary_config =>
    let d := populate_path_vs_id path_vs_id glossary_config
    Except.ok (d, get_mces d glossary_config config)

/-! ### Helper observers used by the theorems -/

/-- The ownership aspects among a term snapshot's aspect list. -/
def termOwnershipAspects : List TermAspect → List OwnershipClass
  | [] => []
  | TermAspect.ownership o :: rest => o :: termOwnershipAspects rest
  | _ :: rest => termOwnershipAspects rest

/-- The ownership aspects among a node snapshot's aspect list. -/
def nodeOwnershipAspects : List NodeAspect → List OwnershipClass
  | [] => []
  | NodeAspect.ownership o :: rest => o :: nodeOwnershipAspects rest
  | _ :: rest => nodeOwnershipAspects rest

/-- The ownership aspects carried by an emitted event's snapshot. -/
def eventOwnerships (e : MetadataChangeEventClass) : List OwnershipClass :=
  match e.proposedSnapshot with
  | Snapshot.node s => nodeOwnershipAspects s.aspects
  | Snapshot.term s => termOwnershipAspects s.aspects

mutual
/-- Number of entities (the node itself, its terms, and all descendants) in a
node's subtree. -/
def node_size : GlossaryNodeConfig → Nat
  | .mk _ _ _ _ terms nodes => 1 + node_list_size nodes + terms.length

/-- Number of entities in a forest of nodes. -/
def node_list_size : GlossaryNodeList → Nat
  | .nil => 0
  | .cons n rest => node_size n + node_list_size rest
end

mutual
/-- No strict descendant (child term or node, recursively) of this node
declares its own owners; the node itself may. -/
def nodeChildrenDeclareNoOwners : GlossaryNodeConfig → Bool
  | .mk _ _ _ _ terms nodes =>
    terms.all (fun t => t.owners.isNone) && nodeListDeclaresNoOwners nodes

/-- No entity in this forest (each node itself included) declares its own
owners. -/
def nodeListDeclaresNoOwners : GlossaryNodeList → Bool
  | .nil => true
  | .cons n rest =>
    (n.owners.isNone && nodeChildrenDeclareNoOwners n)
      && nodeListDeclaresNoOwners rest
end

/-- No entity in this node's subtree (the node itself included) declares its
own owners. -/
def nodeDeclaresNoOwners (n : GlossaryNodeConfig) : Bool :=
  n.owners.isNone && nodeChildrenDeclareNoOwners n

/-- The aspect-list shape of every emitted term snapshot: term info first, then
at most one relationship aspect, then ownership, then a browse-path aspect
holding a single path. -/
def termAspectsShape (aspects : List TermAspect) : Prop :=
  ∃ ti ow bp,
    aspects = [TermAspect.termInfo ti, TermAspect.ownership ow,
               TermAspect.browsePaths { paths := [bp] }]
    ∨ ∃ r, aspects = [TermAspect.termInfo ti, TermAspect.relatedTerms r,
                      TermAspect.ownership ow,
                      TermAspect.browsePaths { paths := [bp] }]

/-- The snapshot shape of every emitted event: node snapshots carry exactly
info, ownership and the removed-false status; term snapshots follow
`termAspectsShape`. -/
def eventShape (e : MetadataChangeEventClass) : Prop :=
  match e.proposedSnapshot with
  | Snapshot.node s =>
    ∃ i o, s.aspects = [NodeAspect.nodeInfo i, NodeAspect.ownership o,
                        NodeAspect.status { removed := false }]
  | Snapshot.term s => termAspectsShape s.aspects

/-- The relationship aspects among a term snapshot's aspect list. -/
def termRelatedTermsAspects : List TermAspect → List GlossaryRelatedTermsClass
  | [] => []
  | TermAspect.relatedTerms r :: rest => r :: termRelatedTermsAspects rest
  | _ :: rest => termRelatedTermsAspects rest

/-- The relationship aspects carried by an emitted event's snapshot (always
empty for node snapshots, which cannot carry one). -/
def eventRelAspects (e : MetadataChangeEventClass) :
    List GlossaryRelatedTermsClass :=
  match e.proposedSnapshot with
  | Snapshot.node _ => []
  | Snapshot.term s => termRelatedTermsAspects s.aspects

/-- The term-info aspects among a term snapshot's aspect list. -/
def termInfoAspects : List TermAspect → List GlossaryTermInfoClass
  | [] => []
  | TermAspect.termInfo i :: rest => i :: termInfoAspects rest
  | _ :: rest => termInfoAspects rest

/-- The term-info aspects carried by an emitted event's snapshot. -/
def eventTermInfos (e : MetadataChangeEventClass) :
    List GlossaryTermInfoClass :=
  match e.proposedSnapshot with
  | Snapshot.node _ => []
  | Snapshot.term s => termInfoAspects s.aspects

/-! ### Concrete fixtures used by witnesses and counterexamples -/

/-- An ingestion config with `enable_auto_id` off. -/
def sample_ingestion_config : BusinessGlossarySourceConfig :=
  { file := "business_glossary.yml", enable_auto_id := false }

/-- Glossary-level owners: the single user `alice`. -/
def sample_owners : Owners := { users := some ["alice"], groups := none }

/-- Glossary-level defaults. -/
def sample_defaults : DefaultConfig :=
  { source := "DEFSRC", owners := sample_owners, url := none,
    source_type := some "INTERNAL" }

/-- A term with the given name and everything else unset. -/
def blank_term (name : String) : GlossaryTermConfig :=
  { id := none, name := name, description := "d", term_source := none,
    source_ref := none, source_url := none, owners := none, inherits := none,
    contains := none, values := none, related_terms := none,
    custom_properties := none }

/-- A minimal version-1 glossary: no nodes, one plain root term. -/
def sample_glossary : BusinessGlossaryConfig :=
  { source := "DEFSRC", owners := sample_owners, url := none,
    source_type := some "INTERNAL", version := "1", nodes := .nil,
    terms := [blank_term "A"] }

/-- C1 fixture: a term named `Revenue` with the explicit id `rev`, nested
under a node. -/
def c1_nested_term : GlossaryTermConfig :=
  { blank_term "Revenue" with id := some "rev" }

/-- C1 fixture: the node `Finance` containing `c1_nested_term`. -/
def c1_node : GlossaryNodeConfig :=
  .mk none "Finance" "d" none [c1_nested_term] .nil

/-- C1 fixture: a root term referencing `Revenue` by bare name. -/
def c1_root_term : GlossaryTermConfig :=
  { blank_term "T" with inherits := some ["Revenue"] }

/-- C1 fixture: glossary with the nested `Revenue` and the referencing root
term. -/
def c1_glossary : BusinessGlossaryConfig :=
  { source := "DEFSRC", owners := sample_owners, url := none,
    source_type := some "INTERNAL", version := "1",
    nodes := .cons c1_node .nil, terms := [c1_root_term] }

/-- C2 fixture: a term whose `inherits` list is present but empty. -/
def c2_term : GlossaryTermConfig :=
  { blank_term "E" with inherits := some [] }

/-- C6 fixture: a term whose `source_ref` is present but the empty string. -/
def c6_term : GlossaryTermConfig :=
  { blank_term "S" with source_ref := some "" }

/-- C2 witness event: the single event emitted for `c2_term`. -/
def c2_event : MetadataChangeEventClass :=
  (get_mces_from_term [] c2_term ["E"] none (get_owners sample_owners)
    sample_defaults sample_ingestion_config)[0]!

/-- C2 witness event: the single event emitted for a term with no reference
lists. -/
def c2_blank_event : MetadataChangeEventClass :=
  (get_mces_from_term [] (blank_term "A") ["A"] none (get_owners sample_owners)
    sample_defaults sample_ingestion_config)[0]!

/-- C6 fixture: a term with a non-empty `source_ref` override. -/
def c6b_term : GlossaryTermConfig :=
  { blank_term "S2" with source_ref := some "SR" }

/-- C6 witness event: the single event emitted for `c6b_term`. -/
def c6_event : MetadataChangeEventClass :=
  (get_mces_from_term [] c6b_term ["S2"] none (get_owners sample_owners)
    sample_defaults sample_ingestion_config)[0]!

/-- C3 fixture: owners declared on a node. -/
def c3_node_owners : Owners := { users := some ["bob"], groups := none }

/-- C3 fixture: a node declaring its own owners, containing one term that
declares none. -/
def c3_node : GlossaryNodeConfig :=
  .mk none "N" "d" (some c3_node_owners) [blank_term "C"] .nil

/-- C3 fixture: glossary with one owned node and one plain root term. -/
def c3_glossary : BusinessGlossaryConfig :=
  { source := "DEFSRC", owners := sample_owners, url := none,
    source_type := some "INTERNAL", version := "1",
    nodes := .cons c3_node .nil, terms := [blank_term "R"] }

/-- C3 fixture: a term declaring its own owners. -/
def c3_owned_term : GlossaryTermConfig :=
  { blank_term "C" with owners := some c3_node_owners }

/-- C3 fixture: a node declaring no owners anywhere in its subtree. -/
def c3_plain_node : GlossaryNodeConfig :=
  .mk none "M" "d" none [blank_term "C"] .nil

/-- C9 fixture: first-run glossary declaring root term `X` with explicit id
`a`. -/
def c9_glossary_A : BusinessGlossaryConfig :=
  { source := "DEFSRC", owners := sample_owners, url := none,
    source_type := some "INTERNAL", version := "1", nodes := .nil,
    terms := [{ blank_term "X" with id := some "a" }] }

/-- C9 fixture: second-run glossary that never mentions `X`. -/
def c9_glossary_B : BusinessGlossaryConfig :=
  { source := "DEFSRC", owners := sample_owners, url := none,
    source_type := some "INTERNAL", version := "1", nodes := .nil,
    terms := [blank_term "Y"] }

/-- C7 fixture: the sample glossary with a rejected version string. -/
def c7_glossary_v2 : BusinessGlossaryConfig :=
  { sample_glossary with version := "2" }

/-- C3/C10 witness event: the single event emitted for the owner-declaring
term `c3_owned_term`. -/
def c3_term_event : MetadataChangeEventClass :=
  (get_mces_from_term [] c3_owned_term ["C"] none (get_owners sample_owners)
    sample_defaults sample_ingestion_config)[0]!

/-- C3 witness event: the node event of the ownerless subtree
`c3_plain_node`. -/
def c3_subtree_node_event : MetadataChangeEventClass :=
  (get_mces_from_node [] c3_plain_node ["M"] none (get_owners sample_owners)
    sample_defaults sample_ingestion_config)[0]!

/-- C3 witness event: the term event of the ownerless subtree
`c3_plain_node`. -/
def c3_subtree_term_event : MetadataChangeEventClass :=
  (get_mces_from_node [] c3_plain_node ["M"] none (get_owners sample_owners)
    sample_defaults sample_ingestion_config)[1]!

/-- C3/C10 witness event: the node event emitted by the `c3_glossary`
pipeline. -/
def c10_node_event : MetadataChangeEventClass :=
  (get_mces [] c3_glossary sample_ingestion_config)[0]!

/-- C10 witness event: the root-term event emitted by the `c3_glossary`
pipeline. -/
def c10_term_event : MetadataChangeEventClass :=
  (get_mces [] c3_glossary sample_ingestion_config)[2]!

/-- The node snapshot inside `c10_node_event`. -/
def c10_node_snapshot : GlossaryNodeSnapshotClass :=
  match c10_node_event.proposedSnapshot with
  | Snapshot.node s => s
  | Snapshot.term _ => default

/-- The term snapshot inside `c10_term_event`. -/
def c10_term_snapshot : GlossaryTermSnapshotClass :=
  match c10_term_event.proposedSnapshot with
  | Snapshot.term s => s
  | Snapshot.node _ => default

/-! ### Theorems -/

/-- Unfolding `get_mces_from_term` to its single event. -/
theorem get_mces_from_term_eq (pvid : PathVsId) (gt : GlossaryTermConfig)
    (path : List String) (pn : Option String) (po : OwnershipClass)
    (df : DefaultConfig) (cfg : BusinessGlossarySourceConfig) :
    get_mces_from_term pvid gt path pn po df cfg =
      [get_mce_from_snapshot (Snapshot.term
        { urn := make_glossary_term_urn path gt.id cfg.enable_auto_id
          aspects := [TermAspect.termInfo (term_info_of gt pn df)]
            ++ (match term_relationship_aspect pvid gt cfg.enable_auto_id with
                | some r => [TermAspect.relatedTerms r]
                | none => [])
            ++ [TermAspect.ownership (term_ownership gt po),
                TermAspect.browsePaths
                  { paths := ["/" ++ String.intercalate "/" path] }] })] := rfl

/-- Each term event satisfies the term aspect-list shape. -/
theorem term_event_shape (pvid : PathVsId) (gt : GlossaryTermConfig)
    (path : List String) (pn : Option String) (po : OwnershipClass)
    (df : DefaultConfig) (cfg : BusinessGlossarySourceConfig) :
    ∀ e ∈ get_mces_from_term pvid gt path pn po df cfg, eventShape e := by
  intro e he
  rw [get_mces_from_term_eq] at he
  rcases List.mem_singleton.mp he with rfl
  cases h : term_relationship_aspect pvid gt cfg.enable_auto_id with
  | none =>
    simp only [eventShape, get_mce_from_snapshot, termAspectsShape, h]
    exact ⟨term_info_of gt pn df, term_ownership gt po,
      "/" ++ String.intercalate "/" path, Or.inl rfl⟩
  | some r =>
    simp only [eventShape, get_mce_from_snapshot, termAspectsShape, h]
    exact ⟨term_info_of gt pn df, term_ownership gt po,
      "/" ++ String.intercalate "/" path, Or.inr ⟨r, rfl⟩⟩

mutual
/-- Every event of a node subtree satisfies the snapshot shape. -/
theorem node_events_shape : ∀ (n : GlossaryNodeConfig) (pvid : PathVsId)
    (path : List String) (pn : Option String) (po : OwnershipClass)
    (df : DefaultConfig) (cfg : BusinessGlossarySourceConfig),
    ∀ e ∈ get_mces_from_node pvid n path pn po df cfg, eventShape e
  | .mk id name descr ow ts ns, pvid, path, pn, po, df, cfg => by
    intro e he
    simp only [get_mces_from_node, List.mem_cons, List.mem_append,
      List.mem_flatten, List.mem_map] at he
    rcases he with rfl | he | ⟨l, ⟨t, _, rfl⟩, hel⟩
    · exact ⟨{ definition := descr, parentNode := pn, name := name },
        node_effective_owners ow po, rfl⟩
    · exact node_list_events_shape ns pvid path
        (make_glossary_node_urn path id cfg.enable_auto_id)
        (node_effective_owners ow po) df cfg e he
    · exact term_event_shape pvid t (path ++ [t.name])
        (some (make_glossary_node_urn path id cfg.enable_auto_id))
        (node_effective_owners ow po) df cfg e hel

/-- Every event of a forest of child nodes satisfies the snapshot shape. -/
theorem node_list_events_shape : ∀ (l : GlossaryNodeList) (pvid : PathVsId)
    (path : List String) (parentUrn : String) (po : OwnershipClass)
    (df : DefaultConfig) (cfg : BusinessGlossarySourceConfig),
    ∀ e ∈ get_mces_from_child_nodes pvid l path parentUrn po df cfg,
      eventShape e
  | .nil, pvid, path, parentUrn, po, df, cfg => by
    intro e he
    simp [get_mces_from_child_nodes] at he
  | .cons n rest, pvid, path, parentUrn, po, df, cfg => by
    intro e he
    simp only [get_mces_from_child_nodes, List.mem_append] at he
    rcases he with he | he
    · exact node_events_shape n pvid (path ++ [n.name]) (some parentUrn) po df
        cfg e he
    · exact node_list_events_shape rest pvid path parentUrn po df cfg e he
end

/-- Every event of the root-node forest satisfies the snapshot shape. -/
theorem root_nodes_events_shape : ∀ (pvid : PathVsId) (l : GlossaryNodeList)
    (ro : OwnershipClass) (df : DefaultConfig)
    (cfg : BusinessGlossarySourceConfig),
    ∀ e ∈ get_mces_from_root_nodes pvid l ro df cfg, eventShape e
  | pvid, .nil, ro, df, cfg => by
    intro e he
    simp [get_mces_from_root_nodes] at he
  | pvid, .cons n rest, ro, df, cfg => by
    intro e he
    simp only [get_mces_from_root_nodes, List.mem_append] at he
    rcases he with he | he
    · exact node_events_shape n pvid [n.name] none ro df cfg e he
    · exact root_nodes_events_shape pvid rest ro df cfg e he

/-- Every event emitted by `get_mces` satisfies the snapshot shape. -/
theorem get_mces_events_shape (pvid : PathVsId)
    (g : BusinessGlossaryConfig) (cfg : BusinessGlossarySourceConfig) :
    ∀ e ∈ get_mces pvid g cfg, eventShape e := by
  intro e he
  simp only [get_mces, List.mem_append, List.mem_flatten, List.mem_map] at he
  rcases he with he | ⟨l, ⟨t, _, rfl⟩, hel⟩
  · exact root_nodes_events_shape pvid g.nodes (get_owners g.owners)
      g.toDefaultConfig cfg e he
  · exact term_event_shape pvid t [t.name] none (get_owners g.owners)
      g.toDefaultConfig cfg e hel

/-- The single term event carries exactly one ownership aspect, whose value is
the term's effective ownership. -/
theorem term_event_ownerships (pvid : PathVsId) (gt : GlossaryTermConfig)
    (path : List String) (pn : Option String) (po : OwnershipClass)
    (df : DefaultConfig) (cfg : BusinessGlossarySourceConfig) :
    ∀ e ∈ get_mces_from_term pvid gt path pn po df cfg,
      eventOwnerships e = [term_ownership gt po] := by
  intro e he
  rw [get_mces_from_term_eq] at he
  rcases List.mem_singleton.mp he with rfl
  cases h : term_relationship_aspect pvid gt cfg.enable_auto_id <;>
    simp [eventOwnerships, get_mce_from_snapshot, h, termOwnershipAspects]

/-- A well-shaped event carries exactly one ownership aspect. -/
theorem eventShape_ownership {e : MetadataChangeEventClass}
    (h : eventShape e) : ∃ ow, eventOwnerships e = [ow] := by
  rcases e with ⟨snap⟩
  cases snap with
  | node s =>
    rcases h with ⟨i, o, hs⟩
    exact ⟨o, by simp [eventOwnerships, hs, nodeOwnershipAspects]⟩
  | term s =>
    rcases h with ⟨ti, ow, bp, hs | ⟨r, hs⟩⟩ <;>
      exact ⟨ow, by simp [eventOwnerships, hs, termOwnershipAspects]⟩

mutual
/-- If no strict descendant of a node declares owners, every event of its
subtree carries the node's own effective ownership. -/
theorem node_events_owner_value : ∀ (n : GlossaryNodeConfig) (pvid : PathVsId)
    (path : List String) (pn : Option String) (po : OwnershipClass)
    (df : DefaultConfig) (cfg : BusinessGlossarySourceConfig),
    nodeChildrenDeclareNoOwners n = true →
    ∀ e ∈ get_mces_from_node pvid n path pn po df cfg,
      eventOwnerships e = [node_effective_owners n.owners po]
  | .mk id name descr ow ts ns, pvid, path, pn, po, df, cfg => by
    intro hno e he
    simp only [nodeChildrenDeclareNoOwners, Bool.and_eq_true,
      List.all_eq_true] at hno
    obtain ⟨hts, hns⟩ := hno
    simp only [get_mces_from_node, List.mem_cons, List.mem_append,
      List.mem_flatten, List.mem_map] at he
    rcases he with rfl | he | ⟨l, ⟨t, ht, rfl⟩, hel⟩
    · simp [eventOwnerships, get_mce_from_snapshot, nodeOwnershipAspects,
        GlossaryNodeConfig.owners]
    · exact node_list_events_owner_inherit ns pvid path
        (make_glossary_node_urn path id cfg.enable_auto_id)
        (node_effective_owners ow po) df cfg hns e he
    · have h1 := term_event_ownerships pvid t (path ++ [t.name])
        (some (make_glossary_node_urn path id cfg.enable_auto_id))
        (node_effective_owners ow po) df cfg e hel
      have h2 : t.owners = none := Option.isNone_iff_eq_none.mp (hts t ht)
      rw [h1]
      simp [term_ownership, h2, GlossaryNodeConfig.owners]

/-- If no entity of a forest declares owners, every event of the forest
carries the inherited ownership. -/
theorem node_list_events_owner_inherit : ∀ (l : GlossaryNodeList)
    (pvid : PathVsId) (path : List String) (parentUrn : String)
    (po : OwnershipClass) (df : DefaultConfig)
    (cfg : BusinessGlossarySourceConfig),
    nodeListDeclaresNoOwners l = true →
    ∀ e ∈ get_mces_from_child_nodes pvid l path parentUrn po df cfg,
      eventOwnerships e = [po]
  | .nil, pvid, path, parentUrn, po, df, cfg => by
    intro _ e he
    simp [get_mces_from_child_nodes] at he
  | .cons n rest, pvid, path, parentUrn, po, df, cfg => by
    intro hno e he
    simp only [nodeListDeclaresNoOwners, Bool.and_eq_true] at hno
    obtain ⟨⟨hown, hch⟩, hrest⟩ := hno
    simp only [get_mces_from_child_nodes, List.mem_append] at he
    rcases he with he | he
    · have h1 := node_events_owner_value n pvid (path ++ [n.name])
        (some parentUrn) po df cfg hch e he
      have h2 : n.owners = none := Option.isNone_iff_eq_none.mp hown
      rw [h1]
      simp [node_effective_owners, h2]
    · exact node_list_events_owner_inherit rest pvid path parentUrn po df cfg
        hrest e he
end

/-- Flattening a map whose images are all singletons yields one element per
input element. -/
theorem flatten_singleton_length {α β : Type} (g : α → List β)
    (h : ∀ a, (g a).length = 1) :
    ∀ l : List α, ((l.map g).flatten).length = l.length := by
  intro l
  induction l with
  | nil => rfl
  | cons a l ih => simp [List.flatten_cons, h a, ih]; omega

mutual
/-- A node subtree emits exactly one event per entity it contains. -/
theorem get_mces_from_node_length : ∀ (n : GlossaryNodeConfig)
    (pvid : PathVsId) (path : List String) (pn : Option String)
    (po : OwnershipClass) (df : DefaultConfig)
    (cfg : BusinessGlossarySourceConfig),
    (get_mces_from_node pvid n path pn po df cfg).length = node_size n
  | .mk id name descr ow ts ns, pvid, path, pn, po, df, cfg => by
    simp [get_mces_from_node, node_size,
      get_mces_from_child_nodes_length ns pvid path
        (make_glossary_node_urn path id cfg.enable_auto_id)
        (node_effective_owners ow po) df cfg,
      flatten_singleton_length
        (fun t => get_mces_from_term pvid t (path ++ [t.name])
          (some (make_glossary_node_urn path id cfg.enable_auto_id))
          (node_effective_owners ow po) df cfg)
        (fun t => rfl) ts]
    omega

/-- A forest of child nodes emits exactly one event per entity it contains. -/
theorem get_mces_from_child_nodes_length : ∀ (l : GlossaryNodeList)
    (pvid : PathVsId) (path : List String) (parentUrn : String)
    (po : OwnershipClass) (df : DefaultConfig)
    (cfg : BusinessGlossarySourceConfig),
    (get_mces_from_child_nodes pvid l path parentUrn po df cfg).length
      = node_list_size l
  | .nil, pvid, path, parentUrn, po, df, cfg => rfl
  | .cons n rest, pvid, path, parentUrn, po, df, cfg => by
    simp [get_mces_from_child_nodes, node_list_size,
      get_mces_from_node_length n pvid (path ++ [n.name]) (some parentUrn) po
        df cfg,
      get_mces_from_child_nodes_length rest pvid path parentUrn po df cfg]
end

/-- A left fold of dict inserts only prepends entries: its result is the
entries it would produce from an empty dict, followed by the incoming dict. -/
theorem foldl_dictInsert_append (f : GlossaryTermConfig → String) :
    ∀ (ts : List GlossaryTermConfig) (d : PathVsId),
      ts.foldl (fun acc t => dictInsert acc (f t) t.id) d
        = ts.foldl (fun acc t => dictInsert acc (f t) t.id) [] ++ d := by
  intro ts
  induction ts with
  | nil => intro d; simp
  | cons t ts ih =>
    intro d
    simp only [List.foldl_cons]
    rw [ih (dictInsert d (f t) t.id), ih (dictInsert [] (f t) t.id)]
    simp [dictInsert, List.append_assoc]

mutual
/-- `_process_child_terms` only prepends entries to the dict it is given. -/
theorem _process_child_terms_append : ∀ (n : GlossaryNodeConfig)
    (path : List String) (d : PathVsId),
    _process_child_terms n path d = _process_child_terms n path [] ++ d
  | .mk id name descr ow ts ns, path, d => by
    simp only [_process_child_terms]
    rw [foldl_dictInsert_append
        (fun t => String.intercalate "." (path ++ [name] ++ [t.name])) ts
        (dictInsert d (String.intercalate "." (path ++ [name])) id),
      foldl_dictInsert_append
        (fun t => String.intercalate "." (path ++ [name] ++ [t.name])) ts
        (dictInsert [] (String.intercalate "." (path ++ [name])) id)]
    rw [_process_child_nodes_append ns (path ++ [name]) _,
      _process_child_nodes_append ns (path ++ [name])
        (ts.foldl (fun acc t => dictInsert acc
            (String.intercalate "." (path ++ [name] ++ [t.name])) t.id) []
          ++ dictInsert [] (String.intercalate "." (path ++ [name])) id)]
    simp [dictInsert, List.append_assoc]

/-- `_process_child_nodes` only prepends entries to the dict it is given. -/
theorem _process_child_nodes_append : ∀ (l : GlossaryNodeList)
    (path : List String) (d : PathVsId),
    _process_child_nodes l path d = _process_child_nodes l path [] ++ d
  | .nil, path, d => by simp [_process_child_nodes]
  | .cons n rest, path, d => by
    simp only [_process_child_nodes]
    rw [_process_child_terms_append n path d,
      _process_child_nodes_append rest path (_process_child_terms n path [] ++ d),
      _process_child_nodes_append rest path (_process_child_terms n path [])]
    simp [List.append_assoc]
end

/-- A `populate_path_vs_id` run only prepends its entries to the incoming
process-wide dict: nothing is ever cleared or removed. -/
theorem populate_path_vs_id_append (d : PathVsId)
    (g : BusinessGlossaryConfig) :
    populate_path_vs_id d g = populate_path_vs_id [] g ++ d := by
  simp only [populate_path_vs_id]
  rw [_process_child_nodes_append g.nodes [] d,
    foldl_dictInsert_append (fun t => String.intercalate "." [t.name]) g.terms
      (_process_child_nodes g.nodes [] [] ++ d),
    foldl_dictInsert_append (fun t => String.intercalate "." [t.name]) g.terms
      (_process_child_nodes g.nodes [] [])]
  simp [List.append_assoc]

/-- Lookup in a concatenated dict: the left entries shadow the right ones. -/
theorem dictGet_append : ∀ (a b : PathVsId) (k : String),
    dictGet (a ++ b) k = (dictGet a k).or (dictGet b k) := by
  intro a
  induction a with
  | nil => intro b k; simp [dictGet]
  | cons e a ih =>
    intro b k
    rcases e with ⟨k0, v0⟩
    by_cases h : k0 = k
    · simp [dictGet, h]
    · simp [dictGet, h, ih b k]

/-- A dict concatenated with itself answers lookups exactly as it would
alone. -/
theorem dictGet_self_append (P : PathVsId) (k : String) :
    dictGet (P ++ P) k = dictGet P k := by
  rw [dictGet_append]
  cases dictGet P k <;> simp

/-- Reference resolution only reads the dict through `dictGet`. -/
theorem resolve_ref_congr {pvid1 pvid2 : PathVsId}
    (h : ∀ k, dictGet pvid1 k = dictGet pvid2 k) (auto : Bool) :
    resolve_ref pvid1 auto = resolve_ref pvid2 auto :=
  funext fun t => by simp [resolve_ref, h t]

/-- The relationship aspect only reads the dict through `dictGet`. -/
theorem term_relationship_aspect_congr {pvid1 pvid2 : PathVsId}
    (h : ∀ k, dictGet pvid1 k = dictGet pvid2 k)
    (gt : GlossaryTermConfig) (auto : Bool) :
    term_relationship_aspect pvid1 gt auto
      = term_relationship_aspect pvid2 gt auto := by
  unfold term_relationship_aspect
  rw [resolve_ref_congr h auto]

/-- Term emission only reads the dict through `dictGet`. -/
theorem get_mces_from_term_congr {pvid1 pvid2 : PathVsId}
    (h : ∀ k, dictGet pvid1 k = dictGet pvid2 k) (gt : GlossaryTermConfig)
    (path : List String) (pn : Option String) (po : OwnershipClass)
    (df : DefaultConfig) (cfg : BusinessGlossarySourceConfig) :
    get_mces_from_term pvid1 gt path pn po df cfg
      = get_mces_from_term pvid2 gt path pn po df cfg := by
  rw [get_mces_from_term_eq, get_mces_from_term_eq,
    term_relationship_aspect_congr h]

mutual
/-- Node emission only reads the dict through `dictGet`. -/
theorem get_mces_from_node_congr : ∀ (n : GlossaryNodeConfig)
    (pvid1 pvid2 : PathVsId) (path : List String) (pn : Option String)
    (po : OwnershipClass) (df : DefaultConfig)
    (cfg : BusinessGlossarySourceConfig),
    (∀ k, dictGet pvid1 k = dictGet pvid2 k) →
    get_mces_from_node pvid1 n path pn po df cfg
      = get_mces_from_node pvid2 n path pn po df cfg
  | .mk id name descr ow ts ns, pvid1, pvid2, path, pn, po, df, cfg => by
    intro h
    have hterm : ∀ t : GlossaryTermConfig,
        get_mces_from_term pvid1 t (path ++ [t.name])
            (some (make_glossary_node_urn path id cfg.enable_auto_id))
            (node_effective_owners ow po) df cfg
          = get_mces_from_term pvid2 t (path ++ [t.name])
            (some (make_glossary_node_urn path id cfg.enable_auto_id))
            (node_effective_owners ow po) df cfg :=
      fun t => get_mces_from_term_congr h t _ _ _ df cfg
    simp only [get_mces_from_node,
      get_mces_from_child_nodes_congr ns pvid1 pvid2 path
        (make_glossary_node_urn path id cfg.enable_auto_id)
        (node_effective_owners ow po) df cfg h,
      hterm]

/-- Child-forest emission only reads the dict through `dictGet`. -/
theorem get_mces_from_child_nodes_congr : ∀ (l : GlossaryNodeList)
    (pvid1 pvid2 : PathVsId) (path : List String) (parentUrn : String)
    (po : OwnershipClass) (df : DefaultConfig)
    (cfg : BusinessGlossarySourceConfig),
    (∀ k, dictGet pvid1 k = dictGet pvid2 k) →
    get_mces_from_child_nodes pvid1 l path parentUrn po df cfg
      = get_mces_from_child_nodes pvid2 l path parentUrn po df cfg
  | .nil, pvid1, pvid2, path, parentUrn, po, df, cfg => by
    intro h
    simp [get_mces_from_child_nodes]
  | .cons n rest, pvid1, pvid2, path, parentUrn, po, df, cfg => by
    intro h
    simp only [get_mces_from_child_nodes,
      get_mces_from_node_congr n pvid1 pvid2 (path ++ [n.name])
        (some parentUrn) po df cfg h,
      get_mces_from_child_nodes_congr rest pvid1 pvid2 path parentUrn po df
        cfg h]
end

/-- Root-forest emission only reads the dict through `dictGet`. -/
theorem get_mces_from_root_nodes_congr : ∀ (l : GlossaryNodeList)
    (pvid1 pvid2 : PathVsId) (ro : OwnershipClass) (df : DefaultConfig)
    (cfg : BusinessGlossarySourceConfig),
    (∀ k, dictGet pvid1 k = dictGet pvid2 k) →
    get_mces_from_root_nodes pvid1 l ro df cfg
      = get_mces_from_root_nodes pvid2 l ro df cfg
  | .nil, pvid1, pvid2, ro, df, cfg => by
    intro h
    simp [get_mces_from_root_nodes]
  | .cons n rest, pvid1, pvid2, ro, df, cfg => by
    intro h
    simp only [get_mces_from_root_nodes,
      get_mces_from_node_congr n pvid1 pvid2 [n.name] none ro df cfg h,
      get_mces_from_root_nodes_congr rest pvid1 pvid2 ro df cfg h]

/-- The whole emission pass only reads the dict through `dictGet`: two dicts
that answer every lookup alike produce identical output. -/
theorem get_mces_congr {pvid1 pvid2 : PathVsId}
    (h : ∀ k, dictGet pvid1 k = dictGet pvid2 k)
    (g : BusinessGlossaryConfig) (cfg : BusinessGlossarySourceConfig) :
    get_mces pvid1 g cfg = get_mces pvid2 g cfg := by
  have hterm : ∀ t : GlossaryTermConfig,
      get_mces_from_term pvid1 t [t.name] none (get_owners g.owners)
          g.toDefaultConfig cfg
        = get_mces_from_term pvid2 t [t.name] none (get_owners g.owners)
          g.toDefaultConfig cfg :=
    fun t => get_mces_from_term_congr h t _ _ _ _ cfg
  simp only [get_mces,
    get_mces_from_root_nodes_congr g.nodes pvid1 pvid2 (get_owners g.owners)
      g.toDefaultConfig cfg h,
    hterm]

/-! ### Claim theorems -/

/-- C4 (confirmed): for every node or term, the identifier assigner returns
the explicit id unchanged when it already carries the recognized
fully-qualified scheme of the entity kind; the explicit id verbatim as the id
part when a bare explicit id is given (no path-join, no hashing); otherwise
the path segments joined with `.` when auto-id is disabled, or the
deterministic hash of the dotted path when enabled.  It is a total function
into `String`, so there is no error condition. -/
theorem claim_C4 :
    (∀ (path : List String) (e : String) (auto : Bool),
        str_startswith e "urn:li:glossaryNode:" = true →
        make_glossary_node_urn path (some e) auto = e)
    ∧ (∀ (path : List String) (e : String) (auto : Bool),
        str_startswith e "urn:li:glossaryNode:" = false →
        make_glossary_node_urn path (some e) auto = "urn:li:glossaryNode:" ++ e)
    ∧ (∀ (path : List String) (e : String) (auto : Bool),
        str_startswith e "urn:li:glossaryTerm:" = true →
        make_glossary_term_urn path (some e) auto = e)
    ∧ (∀ (path : List String) (e : String) (auto : Bool),
        str_startswith e "urn:li:glossaryTerm:" = false →
        make_glossary_term_urn path (some e) auto = "urn:li:glossaryTerm:" ++ e)
    ∧ (∀ (path : List String) (d : String) (auto : Bool),
        create_id path (some d) auto = d)
    ∧ (∀ path : List String,
        create_id path none false = String.intercalate "." path)
    ∧ (∀ path : List String,
        create_id path none true = datahub_guid (String.intercalate "." path)) := by
  refine ⟨?_, ?_, ?_, ?_, ?_, ?_, ?_⟩
  · intro path e auto h; simp [make_glossary_node_urn, h]
  · intro path e auto h; simp [make_glossary_node_urn, h, create_id]
  · intro path e auto h; simp [make_glossary_term_urn, h]
  · intro path e auto h; simp [make_glossary_term_urn, h, create_id]
  · intro path d auto; simp [create_id]
  · intro path; simp [create_id]
  · intro path; simp [create_id]

/-- Witness for C4 at concrete inputs. -/
theorem claim_C4_witness :
    make_glossary_node_urn ["Finance"] (some "urn:li:glossaryNode:fin") true
        = "urn:li:glossaryNode:fin"
    ∧ make_glossary_node_urn ["Finance"] (some "fin") false
        = "urn:li:glossaryNode:fin"
    ∧ make_glossary_term_urn ["A"] (some "urn:li:glossaryTerm:x") true
        = "urn:li:glossaryTerm:x"
    ∧ make_glossary_term_urn ["A"] (some "x") true = "urn:li:glossaryTerm:x" :=
  ⟨claim_C4.1 ["Finance"] "urn:li:glossaryNode:fin" true (by decide),
   claim_C4.2.1 ["Finance"] "fin" false (by decide),
   claim_C4.2.2.1 ["A"] "urn:li:glossaryTerm:x" true (by decide),
   claim_C4.2.2.2.1 ["A"] "x" true (by decide)⟩

/-- C7 (confirmed): a glossary whose `version` field is any string other than
the literal `"1"` raises the fatal validation error before any traversal and
produces no events; a glossary with version exactly `"1"` passes the check and
the run proceeds to the two passes. -/
theorem claim_C7 :
    (∀ (d : PathVsId) (g : BusinessGlossaryConfig)
        (cfg : BusinessGlossarySourceConfig),
        g.version ≠ "1" →
        get_workunits d g cfg = Except.error "Only version 1 is supported")
    ∧ (∀ (d : PathVsId) (g : BusinessGlossaryConfig)
        (cfg : BusinessGlossarySourceConfig),
        g.version = "1" →
        get_workunits d g cfg
          = Except.ok (populate_path_vs_id d g,
              get_mces (populate_path_vs_id d g) g cfg)) := by
  constructor
  · intro d g cfg h
    simp [get_workunits, load_glossary_config, version_must_be_1, h]
  · intro d g cfg h
    simp [get_workunits, load_glossary_config, version_must_be_1, h]

/-- Witness for C7: version `"2"` is rejected with no events, version `"1"`
passes. -/
theorem claim_C7_witness :
    c7_glossary_v2.version ≠ "1"
    ∧ get_workunits path_vs_id_init c7_glossary_v2 sample_ingestion_config
        = Except.error "Only version 1 is supported"
    ∧ sample_glossary.version = "1"
    ∧ get_workunits path_vs_id_init sample_glossary sample_ingestion_config
        = Except.ok (populate_path_vs_id path_vs_id_init sample_glossary,
            get_mces (populate_path_vs_id path_vs_id_init sample_glossary)
              sample_glossary sample_ingestion_config) :=
  ⟨by decide, claim_C7.1 _ _ _ (by decide), rfl, claim_C7.2 _ _ _ rfl⟩

/-- C5 (confirmed): for every node, the output is the node's own event first,
then the full event subsequences of its child nodes in input order, then one
event per child term in input order; every term event therefore appears after
its parent node's event (the head), and the traversal emits exactly one event
per entity of the subtree (`node_size` counts the node, its descendants and
all their terms). -/
theorem claim_C5 :
    (∀ (pvid : PathVsId) (id : Option String) (name descr : String)
        (ow : Option Owners) (ts : List GlossaryTermConfig)
        (ns : GlossaryNodeList) (path : List String) (pn : Option String)
        (po : OwnershipClass) (df : DefaultConfig)
        (cfg : BusinessGlossarySourceConfig),
        get_mces_from_node pvid (.mk id name descr ow ts ns) path pn po df cfg
          = get_mce_from_snapshot (Snapshot.node
              { urn := make_glossary_node_urn path id cfg.enable_auto_id
                aspects := [NodeAspect.nodeInfo
                              { definition := descr, parentNode := pn,
                                name := name },
                            NodeAspect.ownership (node_effective_owners ow po),
                            NodeAspect.status valid_status] })
            :: (get_mces_from_child_nodes pvid ns path
                  (make_glossary_node_urn path id cfg.enable_auto_id)
                  (node_effective_owners ow po) df cfg
                ++ (ts.map fun term =>
                      get_mces_from_term pvid term (path ++ [term.name])
                        (some (make_glossary_node_urn path id
                          cfg.enable_auto_id))
                        (node_effective_owners ow po) df cfg).flatten))
    ∧ (∀ (pvid : PathVsId) (n : GlossaryNodeConfig) (rest : GlossaryNodeList)
        (path : List String) (parentUrn : String) (po : OwnershipClass)
        (df : DefaultConfig) (cfg : BusinessGlossarySourceConfig),
        get_mces_from_child_nodes pvid (.cons n rest) path parentUrn po df cfg
          = get_mces_from_node pvid n (path ++ [n.name]) (some parentUrn) po
              df cfg
            ++ get_mces_from_child_nodes pvid rest path parentUrn po df cfg)
    ∧ (∀ (pvid : PathVsId) (t : GlossaryTermConfig) (path : List String)
        (pn : Option String) (po : OwnershipClass) (df : DefaultConfig)
        (cfg : BusinessGlossarySourceConfig),
        (get_mces_from_term pvid t path pn po df cfg).length = 1)
    ∧ (∀ (pvid : PathVsId) (n : GlossaryNodeConfig) (path : List String)
        (pn : Option String) (po : OwnershipClass) (df : DefaultConfig)
        (cfg : BusinessGlossarySourceConfig),
        (get_mces_from_node pvid n path pn po df cfg).length = node_size n) :=
  ⟨fun _ _ _ _ _ _ _ _ _ _ _ _ => rfl,
   fun _ _ _ _ _ _ _ _ => rfl,
   fun _ _ _ _ _ _ _ => rfl,
   fun pvid n path pn po df cfg =>
     get_mces_from_node_length n pvid path pn po df cfg⟩

/-- C3 (confirmed): every emitted node and term snapshot carries exactly one
ownership aspect, so no entity has undefined ownership.  An entity that
declares its own owners emits exactly those — they replace the inherited
value, whatever it was — and a node's declared owners become the value every
declaration-free descendant inherits; entities in a subtree without any
declaration uniformly carry the ownership passed in from above (at the root,
the glossary-level owners). -/
theorem claim_C3 :
    (∀ (pvid : PathVsId) (g : BusinessGlossaryConfig)
        (cfg : BusinessGlossarySourceConfig),
        ∀ e ∈ get_mces pvid g cfg, ∃ ow, eventOwnerships e = [ow])
    ∧ (∀ (pvid : PathVsId) (gt : GlossaryTermConfig) (path : List String)
        (pn : Option String) (po : OwnershipClass) (df : DefaultConfig)
        (cfg : BusinessGlossarySourceConfig) (o : Owners),
        gt.owners = some o →
        ∀ e ∈ get_mces_from_term pvid gt path pn po df cfg,
          eventOwnerships e = [get_owners o])
    ∧ (∀ (pvid : PathVsId) (gt : GlossaryTermConfig) (path : List String)
        (pn : Option String) (po : OwnershipClass) (df : DefaultConfig)
        (cfg : BusinessGlossarySourceConfig),
        gt.owners = none →
        ∀ e ∈ get_mces_from_term pvid gt path pn po df cfg,
          eventOwnerships e = [po])
    ∧ (∀ (pvid : PathVsId) (id : Option String) (nm ds : String) (o : Owners)
        (ts : List GlossaryTermConfig) (ns : GlossaryNodeList)
        (path : List String) (pn : Option String) (po : OwnershipClass)
        (df : DefaultConfig) (cfg : BusinessGlossarySourceConfig),
        ∃ e rest,
          get_mces_from_node pvid (.mk id nm ds (some o) ts ns) path pn po df
              cfg
            = e :: rest ∧ eventOwnerships e = [get_owners o])
    ∧ (∀ (pvid : PathVsId) (n : GlossaryNodeConfig) (path : List String)
        (pn : Option String) (po : OwnershipClass) (df : DefaultConfig)
        (cfg : BusinessGlossarySourceConfig),
        nodeDeclaresNoOwners n = true →
        ∀ e ∈ get_mces_from_node pvid n path pn po df cfg,
          eventOwnerships e = [po])
    ∧ (∀ (pvid : PathVsId) (id : Option String) (nm ds : String) (o : Owners)
        (ts : List GlossaryTermConfig) (ns : GlossaryNodeList)
        (path : List String) (pn : Option String) (po : OwnershipClass)
        (df : DefaultConfig) (cfg : BusinessGlossarySourceConfig),
        nodeChildrenDeclareNoOwners (.mk id nm ds (some o) ts ns) = true →
        ∀ e ∈ get_mces_from_node pvid (.mk id nm ds (some o) ts ns) path pn po
            df cfg,
          eventOwnerships e = [get_owners o]) := by
  refine ⟨?_, ?_, ?_, ?_, ?_, ?_⟩
  · intro pvid g cfg e he
    exact eventShape_ownership (get_mces_events_shape pvid g cfg e he)
  · intro pvid gt path pn po df cfg o h e he
    rw [term_event_ownerships pvid gt path pn po df cfg e he]
    simp [term_ownership, h]
  · intro pvid gt path pn po df cfg h e he
    rw [term_event_ownerships pvid gt path pn po df cfg e he]
    simp [term_ownership, h]
  · intro pvid id nm ds o ts ns path pn po df cfg
    refine ⟨_, _, rfl, ?_⟩
    simp [eventOwnerships, get_mce_from_snapshot, nodeOwnershipAspects,
      node_effective_owners]
  · intro pvid n path pn po df cfg h e he
    simp only [nodeDeclaresNoOwners, Bool.and_eq_true] at h
    obtain ⟨ho, hch⟩ := h
    rw [node_events_owner_value n pvid path pn po df cfg hch e he]
    simp [node_effective_owners, Option.isNone_iff_eq_none.mp ho]
  · intro pvid id nm ds o ts ns path pn po df cfg h e he
    rw [node_events_owner_value (.mk id nm ds (some o) ts ns) pvid path pn po
      df cfg h e he]
    simp [node_effective_owners, GlossaryNodeConfig.owners]

/-- Witness for C3: the owner-declaring term emits its own owners (not the
inherited `alice`); in the declaration-free subtree `c3_plain_node` both the
node and its term inherit the glossary owners; and the first pipeline event
carries an ownership aspect. -/
theorem claim_C3_witness :
    eventOwnerships c3_term_event = [get_owners c3_node_owners]
    ∧ eventOwnerships c3_subtree_node_event = [get_owners sample_owners]
    ∧ eventOwnerships c3_subtree_term_event = [get_owners sample_owners]
    ∧ ∃ ow, eventOwnerships c10_node_event = [ow] :=
  ⟨claim_C3.2.1 [] c3_owned_term ["C"] none (get_owners sample_owners)
      sample_defaults sample_ingestion_config c3_node_owners rfl
      c3_term_event (by decide),
   claim_C3.2.2.2.2.1 [] c3_plain_node ["M"] none (get_owners sample_owners)
      sample_defaults sample_ingestion_config (by decide)
      c3_subtree_node_event (by decide),
   claim_C3.2.2.2.2.1 [] c3_plain_node ["M"] none (get_owners sample_owners)
      sample_defaults sample_ingestion_config (by decide)
      c3_subtree_term_event (by decide),
   claim_C3.1 [] c3_glossary sample_ingestion_config c10_node_event
      (by decide)⟩

/-- C10 (confirmed): every emitted node snapshot has exactly the three aspects
node info, ownership, and a status with `removed = false`; no emitted term
snapshot has a status aspect, and a term snapshot's aspects are exactly its
term info, an optional relationship aspect, an ownership aspect, and a
browse-path aspect holding the single path `/` followed by the path segments
joined by `/`. -/
theorem claim_C10 :
    (∀ (pvid : PathVsId) (g : BusinessGlossaryConfig)
        (cfg : BusinessGlossarySourceConfig),
        ∀ e ∈ get_mces pvid g cfg,
          (∀ s, e.proposedSnapshot = Snapshot.node s →
            ∃ i o, s.aspects = [NodeAspect.nodeInfo i, NodeAspect.ownership o,
              NodeAspect.status { removed := false }])
          ∧ (∀ s, e.proposedSnapshot = Snapshot.term s →
              (∀ st, TermAspect.status st ∉ s.aspects)
              ∧ termAspectsShape s.aspects))
    ∧ (∀ (pvid : PathVsId) (gt : GlossaryTermConfig) (path : List String)
        (pn : Option String) (po : OwnershipClass) (df : DefaultConfig)
        (cfg : BusinessGlossarySourceConfig),
        ∃ u ti rel,
          get_mces_from_term pvid gt path pn po df cfg
            = [{ proposedSnapshot := Snapshot.term
                  { urn := u
                    aspects := [TermAspect.termInfo ti] ++ rel
                      ++ [TermAspect.ownership (term_ownership gt po),
                          TermAspect.browsePaths
                            { paths :=
                                ["/" ++ String.intercalate "/" path] }] } }]
          ∧ (rel = [] ∨ ∃ r, rel = [TermAspect.relatedTerms r])) := by
  constructor
  · intro pvid g cfg e he
    have hs := get_mces_events_shape pvid g cfg e he
    rcases e with ⟨snap⟩
    constructor
    · intro s hsnap
      simp only at hsnap
      subst hsnap
      exact hs
    · intro s hsnap
      simp only at hsnap
      subst hsnap
      have ht : termAspectsShape s.aspects := hs
      refine ⟨?_, ht⟩
      intro st hmem
      rcases ht with ⟨ti, ow, bp, heq | ⟨r, heq⟩⟩ <;> rw [heq] at hmem <;>
        simp at hmem
  · intro pvid gt path pn po df cfg
    refine ⟨make_glossary_term_urn path gt.id cfg.enable_auto_id,
      term_info_of gt pn df, _, get_mces_from_term_eq pvid gt path pn po df
        cfg, ?_⟩
    cases h : term_relationship_aspect pvid gt cfg.enable_auto_id with
    | none => exact Or.inl rfl
    | some r => exact Or.inr ⟨r, rfl⟩

/-- Witness for C10: the node event of the `c3_glossary` pipeline has exactly
the three node aspects; its root-term event has no status aspect; and the
shape of a concrete term emission. -/
theorem claim_C10_witness :
    (∃ i o, c10_node_snapshot.aspects
        = [NodeAspect.nodeInfo i, NodeAspect.ownership o,
           NodeAspect.status { removed := false }])
    ∧ TermAspect.status { removed := false } ∉ c10_term_snapshot.aspects
    ∧ ∃ u ti rel,
        get_mces_from_term [] (blank_term "A") ["A"] none
            (get_owners sample_owners) sample_defaults sample_ingestion_config
          = [{ proposedSnapshot := Snapshot.term
                { urn := u
                  aspects := [TermAspect.termInfo ti] ++ rel
                    ++ [TermAspect.ownership
                          (term_ownership (blank_term "A")
                            (get_owners sample_owners)),
                        TermAspect.browsePaths
                          { paths := ["/" ++ String.intercalate "/" ["A"]] }] } }]
        ∧ (rel = [] ∨ ∃ r, rel = [TermAspect.relatedTerms r]) :=
  ⟨(claim_C10.1 [] c3_glossary sample_ingestion_config c10_node_event
      (by decide)).1 c10_node_snapshot (by decide),
   ((claim_C10.1 [] c3_glossary sample_ingestion_config c10_term_event
      (by decide)).2 c10_term_snapshot (by decide)).1 { removed := false },
   claim_C10.2 [] (blank_term "A") ["A"] none (get_owners sample_owners)
      sample_defaults sample_ingestion_config⟩

/-- C2 counterexample: `c2_term` declares `inherits: []` — present but empty —
and none of the other three lists; every resolved reference list is therefore
empty, yet the emitted snapshot does contain a relationship aspect (with
`isRelatedTerms = some []`).  This refutes "a relationship aspect only if at
least one of the four resolved reference lists is non-empty": the code tests
the four fields with `is not None`, so a present-but-empty list triggers the
aspect. -/
theorem claim_C2_counterexample :
    c2_term.inherits = some []
    ∧ c2_term.contains = none
    ∧ c2_term.values = none
    ∧ c2_term.related_terms = none
    ∧ (get_mces_from_term [] c2_term ["E"] none (get_owners sample_owners)
          sample_defaults sample_ingestion_config).map eventRelAspects
        = [[{ isRelatedTerms := some [], hasRelatedTerms := none,
              values := none, relatedTerms := none }]] :=
  ⟨rfl, rfl, rfl, rfl, by decide⟩

/-- C2 (corrected): the relationship aspect is emitted exactly when at least
one of the four reference lists is set — even to an empty list; a term with
none of the four fields set emits no relationship aspect; and within an
emitted aspect the fields of absent input lists stay absent (`Option.map`
sends `none` to `none`) while each present list, empty or not, appears
resolved element-wise. -/
theorem claim_C2 :
    (∀ (pvid : PathVsId) (gt : GlossaryTermConfig) (path : List String)
        (pn : Option String) (po : OwnershipClass) (df : DefaultConfig)
        (cfg : BusinessGlossarySourceConfig),
        gt.inherits = none → gt.contains = none → gt.values = none →
        gt.related_terms = none →
        ∀ e ∈ get_mces_from_term pvid gt path pn po df cfg,
          eventRelAspects e = [])
    ∧ (∀ (pvid : PathVsId) (gt : GlossaryTermConfig) (path : List String)
        (pn : Option String) (po : OwnershipClass) (df : DefaultConfig)
        (cfg : BusinessGlossarySourceConfig),
        (gt.inherits.isSome || gt.contains.isSome || gt.values.isSome
          || gt.related_terms.isSome) = true →
        ∀ e ∈ get_mces_from_term pvid gt path pn po df cfg,
          eventRelAspects e
            = [{ isRelatedTerms :=
                   gt.inherits.map
                     (List.map (resolve_ref pvid cfg.enable_auto_id))
                 hasRelatedTerms :=
                   gt.contains.map
                     (List.map (resolve_ref pvid cfg.enable_auto_id))
                 values :=
                   gt.values.map
                     (List.map (resolve_ref pvid cfg.enable_auto_id))
                 relatedTerms :=
                   gt.related_terms.map
                     (List.map (resolve_ref pvid cfg.enable_auto_id)) }]) := by
  constructor
  · intro pvid gt path pn po df cfg h1 h2 h3 h4 e he
    have hrel : term_relationship_aspect pvid gt cfg.enable_auto_id = none := by
      simp [term_relationship_aspect, h1, h2, h3, h4]
    rw [get_mces_from_term_eq] at he
    rcases List.mem_singleton.mp he with rfl
    simp [eventRelAspects, get_mce_from_snapshot, hrel, termRelatedTermsAspects]
  · intro pvid gt path pn po df cfg h e he
    have hrel : term_relationship_aspect pvid gt cfg.enable_auto_id
        = some { isRelatedTerms :=
                   gt.inherits.map
                     (List.map (resolve_ref pvid cfg.enable_auto_id))
                 hasRelatedTerms :=
                   gt.contains.map
                     (List.map (resolve_ref pvid cfg.enable_auto_id))
                 values :=
                   gt.values.map
                     (List.map (resolve_ref pvid cfg.enable_auto_id))
                 relatedTerms :=
                   gt.related_terms.map
                     (List.map (resolve_ref pvid cfg.enable_auto_id)) } := by
      simp only [term_relationship_aspect, Option.isSome_map']
      rw [if_pos h]
    rw [get_mces_from_term_eq] at he
    rcases List.mem_singleton.mp he with rfl
    simp [eventRelAspects, get_mce_from_snapshot, hrel, termRelatedTermsAspects]

/-- Witness for C2: the term with no reference lists emits no relationship
aspect, while `c2_term` (empty `inherits`) emits one with `some []` in the
inherits position and `none` everywhere else. -/
theorem claim_C2_witness :
    eventRelAspects c2_blank_event = []
    ∧ eventRelAspects c2_event
        = [{ isRelatedTerms := some [], hasRelatedTerms := none,
             values := none, relatedTerms := none }] :=
  ⟨claim_C2.1 [] (blank_term "A") ["A"] none (get_owners sample_owners)
      sample_defaults sample_ingestion_config rfl rfl rfl rfl c2_blank_event
      (by decide),
   claim_C2.2 [] c2_term ["E"] none (get_owners sample_owners) sample_defaults
      sample_ingestion_config rfl c2_event (by decide)⟩

/-- C6 counterexample: `c6_term` sets `source_ref: ""` — its own value is
present — yet the emitted `sourceRef` is the glossary default `DEFSRC`, not
the term's own value.  The code resolves `source_ref` (and `source_url`) by
Python truthiness, under which a present empty string falls back to the
default, while only `term_source` is tested with `is not None`; so "the term's
own value when present" does not hold for `source_ref`/`source_url`. -/
theorem claim_C6_counterexample :
    c6_term.source_ref = some ""
    ∧ (get_mces_from_term [] c6_term ["S"] none (get_owners sample_owners)
          sample_defaults sample_ingestion_config).map eventTermInfos
        = [[{ definition := "d", termSource := some "INTERNAL",
              sourceRef := "DEFSRC", sourceUrl := none, parentNode := none,
              customProperties := none, name := "S" }]]
    ∧ sample_defaults.source = "DEFSRC"
    ∧ ("DEFSRC" : String) ≠ "" :=
  ⟨rfl, by decide, rfl, by decide⟩

/-- C6 (corrected): each of the three source fields of the emitted term info
is resolved independently from the term's own value and the glossary-level
default alone — `term_source` uses the own value whenever it is set (even to
the empty string), while `source_ref` and `source_url` use the own value only
when it is set and non-empty, an empty string falling back to the default —
and the resolved source metadata of a term's event does not depend on the
reference dict, the path, the parent node or the inherited ownership, so
intermediate nodes never influence it. -/
theorem claim_C6 :
    (∀ (pvid : PathVsId) (gt : GlossaryTermConfig) (path : List String)
        (pn : Option String) (po : OwnershipClass) (df : DefaultConfig)
        (cfg : BusinessGlossarySourceConfig),
        ∀ e ∈ get_mces_from_term pvid gt path pn po df cfg,
          eventTermInfos e = [term_info_of gt pn df])
    ∧ (∀ (gt : GlossaryTermConfig) (pn : Option String) (df : DefaultConfig)
        (s : String), gt.term_source = some s →
        (term_info_of gt pn df).termSource = some s)
    ∧ (∀ (gt : GlossaryTermConfig) (pn : Option String) (df : DefaultConfig),
        gt.term_source = none →
        (term_info_of gt pn df).termSource = df.source_type)
    ∧ (∀ (gt : GlossaryTermConfig) (pn : Option String) (df : DefaultConfig)
        (s : String), gt.source_ref = some s → s ≠ "" →
        (term_info_of gt pn df).sourceRef = s)
    ∧ (∀ (gt : GlossaryTermConfig) (pn : Option String) (df : DefaultConfig),
        gt.source_ref = none ∨ gt.source_ref = some "" →
        (term_info_of gt pn df).sourceRef = df.source)
    ∧ (∀ (gt : GlossaryTermConfig) (pn : Option String) (df : DefaultConfig)
        (s : String), gt.source_url = some s → s ≠ "" →
        (term_info_of gt pn df).sourceUrl = some s)
    ∧ (∀ (gt : GlossaryTermConfig) (pn : Option String) (df : DefaultConfig),
        gt.source_url = none ∨ gt.source_url = some "" →
        (term_info_of gt pn df).sourceUrl = df.url)
    ∧ (∀ (gt : GlossaryTermConfig) (df : DefaultConfig)
        (cfg : BusinessGlossarySourceConfig) (pvid1 pvid2 : PathVsId)
        (path1 path2 : List String) (pn1 pn2 : Option String)
        (po1 po2 : OwnershipClass),
        (get_mces_from_term pvid1 gt path1 pn1 po1 df cfg).map
            (fun e => (eventTermInfos e).map
              (fun ti => (ti.termSource, ti.sourceRef, ti.sourceUrl)))
          = (get_mces_from_term pvid2 gt path2 pn2 po2 df cfg).map
              (fun e => (eventTermInfos e).map
                (fun ti => (ti.termSource, ti.sourceRef, ti.sourceUrl)))) := by
  have hinfo : ∀ (pvid : PathVsId) (gt : GlossaryTermConfig)
      (path : List String) (pn : Option String) (po : OwnershipClass)
      (df : DefaultConfig) (cfg : BusinessGlossarySourceConfig),
      ∀ e ∈ get_mces_from_term pvid gt path pn po df cfg,
        eventTermInfos e = [term_info_of gt pn df] := by
    intro pvid gt path pn po df cfg e he
    rw [get_mces_from_term_eq] at he
    rcases List.mem_singleton.mp he with rfl
    cases h : term_relationship_aspect pvid gt cfg.enable_auto_id <;>
      simp [eventTermInfos, get_mce_from_snapshot, h, termInfoAspects]
  refine ⟨hinfo, ?_, ?_, ?_, ?_, ?_, ?_, ?_⟩
  · intro gt pn df s h; simp [term_info_of, h]
  · intro gt pn df h; simp [term_info_of, h]
  · intro gt pn df s h hne; simp [term_info_of, h, hne]
  · intro gt pn df h
    rcases h with h | h <;> simp [term_info_of, h]
  · intro gt pn df s h hne; simp [term_info_of, h, hne]
  · intro gt pn df h
    rcases h with h | h <;> simp [term_info_of, h]
  · intro gt df cfg pvid1 pvid2 path1 path2 pn1 pn2 po1 po2
    rw [get_mces_from_term_eq, get_mces_from_term_eq]
    cases h1 : term_relationship_aspect pvid1 gt cfg.enable_auto_id <;>
      cases h2 : term_relationship_aspect pvid2 gt cfg.enable_auto_id <;>
        simp [eventTermInfos, get_mce_from_snapshot, termInfoAspects,
          term_info_of]

/-- Witness for C6 at concrete inputs: the emitted info of `c6b_term` equals
the resolver's output; a set non-empty `source_ref` wins; an empty one falls
back to the default. -/
theorem claim_C6_witness :
    eventTermInfos c6_event = [term_info_of c6b_term none sample_defaults]
    ∧ (term_info_of c6b_term none sample_defaults).sourceRef = "SR"
    ∧ (term_info_of c6_term none sample_defaults).sourceRef
        = sample_defaults.source
    ∧ (term_info_of c6_term none sample_defaults).termSource
        = sample_defaults.source_type :=
  ⟨claim_C6.1 [] c6b_term ["S2"] none (get_owners sample_owners)
      sample_defaults sample_ingestion_config c6_event (by decide),
   claim_C6.2.2.2.1 c6b_term none sample_defaults "SR" rfl (by decide),
   claim_C6.2.2.2.2.1 c6_term none sample_defaults (Or.inr rfl),
   claim_C6.2.2.1 c6_term none sample_defaults rfl⟩

/-- C1 counterexample: in `c1_glossary` the only term named `Revenue` is
nested under the node `Finance` and carries the explicit id `rev`; the index
pre-pass recorded that id under the dotted key `Finance.Revenue`.  The root
term's bare reference `Revenue` misses that key (`dictGet` returns `none`), so
the emitted relationship identifier is derived from the bare name —
`urn:li:glossaryTerm:Revenue`, not `urn:li:glossaryTerm:rev` — refuting "the
explicit id the reference index recorded for a term of that name anywhere in
the hierarchy (at root or nested under any node)". -/
theorem claim_C1_counterexample :
    dictGet (populate_path_vs_id path_vs_id_init c1_glossary)
        "Finance.Revenue" = some (some "rev")
    ∧ dictGet (populate_path_vs_id path_vs_id_init c1_glossary) "Revenue"
        = none
    ∧ (get_mces (populate_path_vs_id path_vs_id_init c1_glossary) c1_glossary
          sample_ingestion_config).map eventRelAspects
        = [[], [],
           [{ isRelatedTerms := some ["urn:li:glossaryTerm:Revenue"],
              hasRelatedTerms := none, values := none, relatedTerms := none }]]
    ∧ ("urn:li:glossaryTerm:Revenue" : String) ≠ "urn:li:glossaryTerm:rev" :=
  ⟨by decide, by decide, by decide, by decide⟩

/-- C1 (corrected): each bare referenced name is resolved through the index
entry whose key is exactly the referenced string — the index is keyed by full
dotted paths, so a nested term's explicit id is found only when the reference
spells that dotted path; a reference that misses the index falls back,
silently, to an identifier derived from the single-segment name alone, and
when an entry is found (explicit id or recorded `None`) the resolver behaves
as `make_glossary_term_urn([name], stored_id, auto)`.  Resolution is a total
function: it never raises. -/
theorem claim_C1 :
    (∀ (pvid : PathVsId) (auto : Bool) (t : String),
        dictGet pvid t = none →
        resolve_ref pvid auto t
          = "urn:li:glossaryTerm:" ++ create_id [t] none auto)
    ∧ (∀ (pvid : PathVsId) (auto : Bool) (t : String) (v : Option String),
        dictGet pvid t = some v →
        resolve_ref pvid auto t = make_glossary_term_urn [t] v auto)
    ∧ (∀ (pvid : PathVsId) (gt : GlossaryTermConfig) (auto : Bool)
        (r : GlossaryRelatedTermsClass),
        term_relationship_aspect pvid gt auto = some r →
        r.isRelatedTerms = gt.inherits.map (List.map (resolve_ref pvid auto))
        ∧ r.hasRelatedTerms = gt.contains.map (List.map (resolve_ref pvid auto))
        ∧ r.values = gt.values.map (List.map (resolve_ref pvid auto))
        ∧ r.relatedTerms
            = gt.related_terms.map (List.map (resolve_ref pvid auto))) := by
  refine ⟨?_, ?_, ?_⟩
  · intro pvid auto t h
    simp [resolve_ref, h, make_glossary_term_urn]
  · intro pvid auto t v h
    simp [resolve_ref, h]
  · intro pvid gt auto r h
    simp only [term_relationship_aspect] at h
    split at h
    · rw [Option.some.injEq] at h
      subst h
      exact ⟨rfl, rfl, rfl, rfl⟩
    · cases h

/-- Witness for C1: a missing key derives from the bare name; a present key
feeds the stored id to the urn maker; and the concrete relationship aspect of
`c1_root_term` resolves its one reference with `resolve_ref`. -/
theorem claim_C1_witness :
    resolve_ref [] false "x" = "urn:li:glossaryTerm:" ++ create_id ["x"] none false
    ∧ resolve_ref [("x", some "i")] false "x"
        = make_glossary_term_urn ["x"] (some "i") false
    ∧ ({ isRelatedTerms := some ["urn:li:glossaryTerm:Revenue"],
         hasRelatedTerms := none, values := none, relatedTerms := none }
          : GlossaryRelatedTermsClass).isRelatedTerms
        = c1_root_term.inherits.map (List.map (resolve_ref [] false)) :=
  ⟨claim_C1.1 [] false "x" rfl,
   claim_C1.2.1 [("x", some "i")] false "x" (some "i") (by decide),
   (claim_C1.2.2 [] c1_root_term false _ (by decide)).1⟩

/-- Running the index pre-pass a second time over the same glossary leaves
every lookup unchanged, so the emission pass gives the same output from the
once- and twice-populated dict. -/
theorem get_mces_two_runs (g : BusinessGlossaryConfig)
    (cfg : BusinessGlossarySourceConfig) :
    get_mces (populate_path_vs_id (populate_path_vs_id [] g) g) g cfg
      = get_mces (populate_path_vs_id [] g) g cfg := by
  refine get_mces_congr (fun k => ?_) g cfg
  rw [populate_path_vs_id_append (populate_path_vs_id [] g) g]
  exact dictGet_self_append (populate_path_vs_id [] g) k

/-- C8 (confirmed): with auto-id enabled the hashed identifier of an
explicit-id-free entity is a function of its dotted path only — `create_id`
takes nothing but the path, so no other entity can influence it — and running
the source twice on the same parsed hierarchy yields the same events: the
first run from the pristine process state, the second from the state the
first left behind, both produce the identical event list (identifiers and
ordering included). -/
theorem claim_C8 :
    (∀ path : List String,
        create_id path none true = datahub_guid (String.intercalate "." path))
    ∧ (∀ (g : BusinessGlossaryConfig) (cfg : BusinessGlossarySourceConfig),
        get_mces (populate_path_vs_id (populate_path_vs_id [] g) g) g cfg
          = get_mces (populate_path_vs_id [] g) g cfg)
    ∧ (∀ (g : BusinessGlossaryConfig) (cfg : BusinessGlossarySourceConfig)
        (d1 : PathVsId) (e1 : List MetadataChangeEventClass),
        cfg.enable_auto_id = false →
        get_workunits path_vs_id_init g cfg = Except.ok (d1, e1) →
        ∃ d2, get_workunits d1 g cfg = Except.ok (d2, e1)) := by
  refine ⟨fun path => rfl, get_mces_two_runs, ?_⟩
  intro g cfg d1 e1 _ h
  by_cases hv : g.version = "1"
  · have hred : get_workunits path_vs_id_init g cfg
        = Except.ok (populate_path_vs_id [] g,
            get_mces (populate_path_vs_id [] g) g cfg) := by
      simp [get_workunits, load_glossary_config, version_must_be_1, hv,
        path_vs_id_init]
    rw [hred] at h
    injection Except.ok.inj h with h1 h2
    subst h1
    subst h2
    refine ⟨populate_path_vs_id (populate_path_vs_id [] g) g, ?_⟩
    have hred2 : get_workunits (populate_path_vs_id [] g) g cfg
        = Except.ok (populate_path_vs_id (populate_path_vs_id [] g) g,
            get_mces (populate_path_vs_id (populate_path_vs_id [] g) g) g
              cfg) := by
      simp [get_workunits, load_glossary_config, version_must_be_1, hv]
    rw [hred2, get_mces_two_runs g cfg]
  · simp [get_workunits, load_glossary_config, version_must_be_1, hv] at h

/-- Witness for C8: on the sample glossary, the second run reproduces the
first run's event list. -/
theorem claim_C8_witness :
    sample_ingestion_config.enable_auto_id = false
    ∧ ∃ d2, get_workunits (populate_path_vs_id [] sample_glossary)
          sample_glossary sample_ingestion_config
        = Except.ok (d2,
            get_mces (populate_path_vs_id [] sample_glossary) sample_glossary
              sample_ingestion_config) :=
  ⟨rfl,
   claim_C8.2.2 sample_glossary sample_ingestion_config
     (populate_path_vs_id [] sample_glossary)
     (get_mces (populate_path_vs_id [] sample_glossary) sample_glossary
       sample_ingestion_config) rfl rfl⟩

/-- C9 counterexample: after a run over `c9_glossary_A` (which records `X ->
a`), a second run over `c9_glossary_B` — a glossary that never mentions `X` —
still resolves `X` to the first run's entry, while a run started from the
pristine process state finds nothing: the reference index is not discarded
between runs, so the second run does not start from an empty index. -/
theorem claim_C9_counterexample :
    dictGet (populate_path_vs_id
        (populate_path_vs_id path_vs_id_init c9_glossary_A) c9_glossary_B)
        "X" = some (some "a")
    ∧ dictGet (populate_path_vs_id path_vs_id_init c9_glossary_B) "X"
        = none :=
  ⟨by decide, by decide⟩

/-- C9 (corrected): the reference index is a process-wide table that a run
never clears — each run stacks its own entries on top of whatever the table
already holds, a successful run hands exactly that accumulated table to the
next one, and any entry visible before a run is still visible (for some
stored value) after it; only a fresh process starts from the empty
`path_vs_id_init`. -/
theorem claim_C9 :
    (∀ (d : PathVsId) (g : BusinessGlossaryConfig),
        populate_path_vs_id d g
          = populate_path_vs_id path_vs_id_init g ++ d)
    ∧ (∀ (d : PathVsId) (g : BusinessGlossaryConfig)
        (cfg : BusinessGlossarySourceConfig) (d2 : PathVsId)
        (es : List MetadataChangeEventClass),
        get_workunits d g cfg = Except.ok (d2, es) →
        d2 = populate_path_vs_id d g)
    ∧ (∀ (d : PathVsId) (g : BusinessGlossaryConfig) (k : String),
        (dictGet d k).isSome = true →
        (dictGet (populate_path_vs_id d g) k).isSome = true) := by
  refine ⟨?_, ?_, ?_⟩
  · intro d g
    exact populate_path_vs_id_append d g
  · intro d g cfg d2 es h
    by_cases hv : g.version = "1"
    · have hred : get_workunits d g cfg
          = Except.ok (populate_path_vs_id d g,
              get_mces (populate_path_vs_id d g) g cfg) := by
        simp [get_workunits, load_glossary_config, version_must_be_1, hv]
      rw [hred] at h
      injection Except.ok.inj h with h1 h2
      exact h1.symm
    · simp [get_workunits, load_glossary_config, version_must_be_1, hv] at h
  · intro d g k h
    rw [populate_path_vs_id_append d g, dictGet_append]
    cases hdg : dictGet (populate_path_vs_id [] g) k <;>
      simp_all [Option.or]

/-- Witness for C9: the accumulated-table law at a concrete pair of runs, the
table returned by a concrete successful run, and the persistence of the entry
`X` through a run that never mentions it. -/
theorem claim_C9_witness :
    populate_path_vs_id (populate_path_vs_id path_vs_id_init c9_glossary_A)
        c9_glossary_B
      = populate_path_vs_id path_vs_id_init c9_glossary_B
        ++ populate_path_vs_id path_vs_id_init c9_glossary_A
    ∧ populate_path_vs_id path_vs_id_init sample_glossary
        = populate_path_vs_id path_vs_id_init sample_glossary
    ∧ (dictGet (populate_path_vs_id
          (populate_path_vs_id path_vs_id_init c9_glossary_A) c9_glossary_B)
          "X").isSome = true :=
  ⟨claim_C9.1 (populate_path_vs_id path_vs_id_init c9_glossary_A)
      c9_glossary_B,
   claim_C9.2.1 path_vs_id_init sample_glossary sample_ingestion_config
      (populate_path_vs_id path_vs_id_init sample_glossary)
      (get_mces (populate_path_vs_id path_vs_id_init sample_glossary)
        sample_glossary sample_ingestion_config) rfl,
   claim_C9.2.2 (populate_path_vs_id path_vs_id_init c9_glossary_A)
      c9_glossary_B "X" (by decide)⟩
